import Mathlib

/-!
Verification of the SMF-28 fiber end-face simulation (`fiber_simulation.py`,
`run_in_env.py`) against its natural-language specification.

The Python program is shallowly embedded: Python floats are modelled as real
numbers `ℝ` (exact rationals `ℚ` where the computation is purely rational),
complex field arrays of shape 512×512 as functions `Fin 512 → Fin 512 → ℂ`,
and fallible steps as `Option`.  The external LightPipes library is not part
of the repository; its operations used by the pipeline (`Begin`/`GaussBeam`,
`CircAperture`, `SubPhase`, `Fresnel`, `Intensity`) are modelled from the
specification's component design (sections 4.2-4.5) and marked as such.
-/

namespace FiberSim

/-- Source: `SMF28Simulator.__init__`, line 37:
`self.v_number = (2 * np.pi * self.core_radius * self.na) / self.wavelength`. -/
noncomputable def v_number (wavelength core_radius na : ℝ) : ℝ :=
  2 * Real.pi * core_radius * na / wavelength

/-- Source: `SMF28Simulator.calculate_mfd`, lines 45-51:
if `v_number < 2.405` then `2 * (0.65 + 1.619/v**1.5 + 2.879/v**6) * core_radius`
else `2 * core_radius`.  Python float `**` on positive reals is `Real.rpow`
for the fractional exponent and the monoid power for the integer exponent. -/
noncomputable def calculate_mfd (wavelength core_radius na : ℝ) : ℝ :=
  if v_number wavelength core_radius na < 2.405 then
    2 * (0.65 + 1.619 / (v_number wavelength core_radius na) ^ (1.5 : ℝ)
           + 2.879 / (v_number wavelength core_radius na) ^ (6 : ℕ)) * core_radius
  else
    2 * core_radius

/-- Source: `SMF28Simulator.__init__`, line 30: `self.grid_size = 512`. -/
def grid_size : ℕ := 512

/-- Source: `SMF28Simulator.__init__`, line 31: `self.physical_size = 500e-6`. -/
noncomputable def physical_size : ℝ := 500e-6

/-- Source: `SMF28Simulator.__init__`, line 24: `self.wavelength = 1550e-9`. -/
noncomputable def sim_wavelength : ℝ := 1550e-9

/-- Source: `SMF28Simulator.__init__`, line 25: `self.core_radius = 4.5e-6`. -/
noncomputable def sim_core_radius : ℝ := 4.5e-6

/-- Source: `SMF28Simulator.__init__`, line 26: `self.cladding_radius = 62.5e-6`. -/
noncomputable def sim_cladding_radius : ℝ := 62.5e-6

/-- Source: `SMF28Simulator.__init__`, line 27: `self.na = 0.12`. -/
noncomputable def sim_na : ℝ := 0.12

/-- An optical field over the 512×512 grid: the complex amplitude array
(spec section 3, OpticalField). -/
def Field : Type := Fin grid_size → Fin grid_size → ℂ

instance : NeZero grid_size := ⟨by decide⟩

/-- Euler's number as used in `np.e`. -/
noncomputable def napier_e : ℝ := Real.exp 1

/-- Modelled from the spec: LightPipes' `Intensity` (spec section 4.6,
"pointwise intensity (squared magnitude)"): `|E|²` at each grid point. -/
noncomputable def intensity (f : Field) (i j : Fin grid_size) : ℝ :=
  Complex.abs (f i j) ^ 2

/-- Source: `analyze_beam`, line 106: `max_intensity = np.max(intensity)` —
the maximum of the full 2D intensity array. -/
noncomputable def max_intensity (f : Field) : ℝ :=
  Finset.univ.sup' (Finset.univ_nonempty)
    (fun p : Fin grid_size × Fin grid_size => intensity f p.1 p.2)

/-- Source: `analyze_beam`, line 107: `threshold = max_intensity / (np.e**2)`. -/
noncomputable def threshold (f : Field) : ℝ :=
  max_intensity f / napier_e ^ 2

/-- Source: `analyze_beam`, line 104: `center_idx = self.grid_size // 2`. -/
def center_idx : Fin grid_size := ⟨grid_size / 2, by decide⟩

/-- Source: `analyze_beam`, line 105: `x_profile = intensity[center_idx, :]` —
the intensity row through the grid center. -/
noncomputable def x_profile (f : Field) (j : Fin grid_size) : ℝ :=
  intensity f center_idx j

/-- Source: `analyze_beam`, line 109:
`x_coords = np.linspace(-physical_size/2, physical_size/2, grid_size)`;
`np.linspace` includes both endpoints, so the spacing is `L/(N-1)`. -/
noncomputable def x_coords (j : Fin grid_size) : ℝ :=
  -physical_size / 2 + (j : ℝ) * (physical_size / ((grid_size : ℝ) - 1))

/-- Source: `analyze_beam`, line 110:
`x_indices = np.where(x_profile > threshold)[0]` — the set of column indices
whose profile sample is strictly above the threshold (`np.where` lists them
in increasing order, so `x_indices[0]` is the least and `x_indices[-1]` the
greatest member). -/
def above_set (f : Field) : Set ℕ :=
  {j : ℕ | ∃ hj : j < grid_size, threshold f < x_profile f ⟨j, hj⟩}

/-- Source: `analyze_beam`, line 113: `x_indices[0]`, the first index strictly
above threshold. -/
noncomputable def first_above (f : Field) : ℕ := sInf (above_set f)

/-- Source: `analyze_beam`, line 113: `x_indices[-1]`, the last index strictly
above threshold. -/
noncomputable def last_above (f : Field) : ℕ := sSup (above_set f)

open Classical in
/-- Source: `analyze_beam`, lines 112-115: if `len(x_indices) > 0` then
`beam_width = (x_indices[-1] - x_indices[0]) * physical_size / grid_size`,
else `beam_width = 0`. -/
noncomputable def beam_width (f : Field) : ℝ :=
  if (above_set f).Nonempty then
    ((last_above f : ℝ) - (first_above f : ℝ)) * physical_size / (grid_size : ℝ)
  else 0

/-- The record returned by `analyze_beam`: the Python dict literal of
lines 117-123, with keys `intensity`, `beam_width`, `max_intensity`,
`x_coords`, `x_profile`. -/
structure BeamAnalysis where
  intensity : Fin grid_size → Fin grid_size → ℝ
  beam_width : ℝ
  max_intensity : ℝ
  x_coords : Fin grid_size → ℝ
  x_profile : Fin grid_size → ℝ

/-- Source: `SMF28Simulator.analyze_beam`, lines 99-123, assembled from the
components above; the function is total (returns on every input). -/
noncomputable def analyze_beam (f : Field) : BeamAnalysis where
  intensity := intensity f
  beam_width := beam_width f
  max_intensity := max_intensity f
  x_coords := x_coords
  x_profile := x_profile f

/-- The exact keys of the dict returned by `analyze_beam`
(source lines 117-123); the return value carries nothing else. -/
def analyze_beam_keys : List String :=
  ["intensity", "beam_width", "max_intensity", "x_coords", "x_profile"]

/-- The all-zero field. -/
def zero_field : Field := fun _ _ => 0

/-- The all-one field. -/
def one_field : Field := fun _ _ => 1

/-- Source: `concave_endface`, lines 78-81: `x = np.linspace(-L/2, L/2, N)`,
`y` likewise, `X, Y = np.meshgrid(x, y)` (so `X[i,j] = x[j]`, `Y[i,j] = y[i]`)
and `R = np.sqrt(X**2 + Y**2)`: the radial distance of grid point `(i,j)`.
The coordinate axis is the same `np.linspace` array as `x_coords`. -/
noncomputable def rho (i j : Fin grid_size) : ℝ :=
  Real.sqrt (x_coords j ^ 2 + x_coords i ^ 2)

/-- Source: `concave_endface`, line 84:
`aperture_radius = self.core_radius * aperture_factor`. -/
noncomputable def aperture_radius (aperture_factor : ℝ) : ℝ :=
  sim_core_radius * aperture_factor

open Classical in
/-- Source: `concave_endface`, lines 87-90: `k = 2 * np.pi / self.wavelength`;
`phase_mask[valid_region] = k * R[valid_region]**2 / (2 * curvature_radius)`
where `valid_region = R <= aperture_radius`, and the array is `np.zeros_like`
outside it. -/
noncomputable def phase_mask (curvature_radius aperture_factor : ℝ)
    (i j : Fin grid_size) : ℝ :=
  if rho i j ≤ aperture_radius aperture_factor then
    (2 * Real.pi / sim_wavelength) * rho i j ^ 2 / (2 * curvature_radius)
  else 0

open Classical in
/-- Modelled from the spec: LightPipes `CircAperture` (spec section 4.3,
ApertureMask — the library code is not in the repository): the field is kept
where the radial distance from center is at most `r` and zeroed elsewhere. -/
noncomputable def circ_aperture (r : ℝ) (f : Field) : Field :=
  fun i j => if rho i j ≤ r then f i j else 0

/-- Modelled from the spec: LightPipes `SubPhase` as used by this pipeline
(spec section 4.4, PhaseMask — the library code is not in the repository):
applying the phase mask multiplies the field by `exp(i·phase)` pointwise. -/
noncomputable def sub_phase (phase : Fin grid_size → Fin grid_size → ℝ)
    (f : Field) : Field :=
  fun i j => f i j * Complex.exp (Complex.I * (phase i j : ℝ))

/-- Modelled from the spec: LightPipes `Begin` + `GaussBeam` (spec
section 4.2, FieldGrid seeding — the library code is not in the repository):
a centered Gaussian amplitude profile with waist `w0`. -/
noncomputable def gauss_beam (w0 : ℝ) : Field :=
  fun i j => Complex.ofReal (Real.exp (-(x_coords j ^ 2 + x_coords i ^ 2) / w0 ^ 2))

/-- Source: `create_fiber_mode`, lines 53-58: `GaussBeam(beam, self.mfd/2)`
then `CircAperture(beam, self.cladding_radius)`. -/
noncomputable def create_fiber_mode : Field :=
  circ_aperture sim_cladding_radius
    (gauss_beam (calculate_mfd sim_wavelength sim_core_radius sim_na / 2))

/-- Modelled from the spec: the spatial frequency carried by index `p`
(`np.fft.fftfreq` convention: `0, 1, …, N/2−1, −N/2, …, −1` divided by
`N·spacing = L`). -/
noncomputable def freq (p : Fin grid_size) : ℝ :=
  (if (p : ℕ) < grid_size / 2 then ((p : ℕ) : ℝ)
   else ((p : ℕ) : ℝ) - (grid_size : ℝ)) / physical_size

/-- Modelled from the spec: the 2D discrete Fourier transform of a field. -/
noncomputable def dft2 (f : Field) : Field :=
  fun p q => ∑ m : Fin grid_size, ∑ n : Fin grid_size,
    f m n * Complex.exp (-2 * (Real.pi : ℂ) * Complex.I *
      ((((p : ℕ) * (m : ℕ) + (q : ℕ) * (n : ℕ) : ℕ) : ℝ) / (grid_size : ℝ) : ℝ))

/-- Modelled from the spec: the 2D inverse discrete Fourier transform. -/
noncomputable def idft2 (f : Field) : Field :=
  fun m n => ((grid_size : ℂ) ^ 2)⁻¹ * ∑ p : Fin grid_size, ∑ q : Fin grid_size,
    f p q * Complex.exp (2 * (Real.pi : ℂ) * Complex.I *
      ((((p : ℕ) * (m : ℕ) + (q : ℕ) * (n : ℕ) : ℕ) : ℝ) / (grid_size : ℝ) : ℝ))

/-- Modelled from the spec: LightPipes `Fresnel` (spec section 4.5,
Propagator — the library code is not in the repository): multiply the field's
spatial-frequency spectrum by the paraxial transfer function
`exp(i·k·z)·exp(−i·π·λ·z·(fx²+fy²))`, then transform back. -/
noncomputable def fresnel (z : ℝ) (f : Field) : Field :=
  idft2 (fun p q =>
    Complex.exp (Complex.I * (((2 * Real.pi / sim_wavelength) * z : ℝ) : ℂ)) *
    Complex.exp (-Complex.I * ((Real.pi * sim_wavelength * z * (freq p ^ 2 + freq q ^ 2) : ℝ) : ℂ)) *
    dft2 f p q)

/-- Source: `flat_endface`, lines 60-64: the seeded fiber mode propagated by
`Fresnel(beam, distance)`. -/
noncomputable def flat_endface (distance : ℝ) : Field :=
  fresnel distance create_fiber_mode

/-- Source: `concave_endface`, lines 66-97: the seeded fiber mode, then
`SubPhase(beam, phase_mask)`, then `CircAperture(beam, aperture_radius)`,
then `Fresnel(beam, distance)`. -/
noncomputable def concave_endface (curvature_radius aperture_factor distance : ℝ) : Field :=
  fresnel distance
    (circ_aperture (aperture_radius aperture_factor)
      (sub_phase (phase_mask curvature_radius aperture_factor) create_fiber_mode))

/-- Source: `parameter_study`, line 128:
`curvature_radii = np.array([30, 50, 75, 100, 150, 200]) * 1e-6`. -/
noncomputable def curvature_radii : List ℝ :=
  [30e-6, 50e-6, 75e-6, 100e-6, 150e-6, 200e-6]

/-- Source: `parameter_study`, line 129: `distance = 1e-3`. -/
noncomputable def study_distance : ℝ := 1e-3

/-- Source: `parameter_study`, lines 136-140: each sweep iteration recomputes
`flat_beam = self.flat_endface(distance)` afresh and appends
`analyze_beam(flat_beam)['beam_width']` to `beam_widths_flat`; the radius of
the iteration is not used by this branch. -/
noncomputable def beam_widths_flat : List ℝ :=
  curvature_radii.map (fun _radius => (analyze_beam (flat_endface study_distance)).beam_width)

/-- Source: `parameter_study`, line 223: the textual summary computes
`(beam_widths_concave[-1]/beam_widths_flat[-1]-1)*100` with no guard on the
denominator; a zero denominator is a Python division-by-zero (modelled as
`none`), otherwise the finite percentage is produced. -/
def divergence_percent (concave_width flat_width : ℚ) : Option ℚ :=
  if flat_width = 0 then none
  else some ((concave_width / flat_width - 1) * 100)

/-- Source: `SMF28Simulator.__init__`, line 20: `def __init__(self)` — the
constructor takes no configuration parameters at all. -/
def init_params : List String := []

/-- Source: `fiber_simulation.py`, whole file: the module contains no `raise`
statement and defines no exception class; in particular no
`ConfigurationError` exists or can be raised. -/
def fiber_simulation_raises : List String := []

/-- The immutable parameter record built by `__init__` (lines 24-31), with
the hard-coded values as exact rationals. -/
structure SimParams where
  wavelength : ℚ
  core_radius : ℚ
  cladding_radius : ℚ
  na : ℚ
  grid_size : ℕ
  physical_size : ℚ

/-- Source: `SMF28Simulator.__init__`, lines 24-31: the constructor
unconditionally assigns the fixed values `1550e-9`, `4.5e-6`, `62.5e-6`,
`0.12`, `512`, `500e-6`; no validation is performed and construction always
succeeds. -/
def smf28_init : SimParams where
  wavelength := 1550e-9
  core_radius := 4.5e-6
  cladding_radius := 62.5e-6
  na := 0.12
  grid_size := 512
  physical_size := 500e-6

/-- Source: spec section 3 (SimulationGrid): sample spacing = L/N, as an
exact rational for the default configuration. -/
def grid_spacing_q : ℚ := 500e-6 / 512

/-- Modelled from the spec: the Fresnel-regime sampling criterion (spec
sections 4.5 and 7): the configuration is adequately sampled when
`grid_spacing² ≳ wavelength·distance/N`, so the criterion is violated when
`grid_spacing²·N < wavelength·distance`. -/
def sampling_criterion_violated (grid_spacing wavelength distance : ℚ) (n : ℕ) : Bool :=
  decide (grid_spacing ^ 2 * n < wavelength * distance)

/-- Source: `flat_endface` (lines 60-64) and `concave_endface` (lines 66-97):
`Fresnel(beam, distance)` is called with no sampling-validity check before or
after it, and neither function (nor anything else in the module) constructs
or emits a warning; the warnings surfaced to the caller of the propagation
step are therefore empty for every configuration. -/
def sampling_warnings (grid_spacing wavelength distance : ℚ) (n : ℕ) : List String := []

/-- Source: `run_in_env.py`, `main` (lines 11-32): returns `False` when
`fiber_optics_simulation.py` does not exist, otherwise runs the simulation
via `subprocess.run(..., check=True)` and returns `True` on success and
`False` when `CalledProcessError` is caught. -/
def run_in_env_main (file_exists sim_succeeds : Bool) : Bool :=
  if !file_exists then false
  else if sim_succeeds then true
  else false

/-- Source: `run_in_env.py`, lines 34-35: the `__main__` guard calls `main()`
and discards its return value; `sys.exit` is never invoked, so the
interpreter exits with code 0 whatever `main` returned. -/
def run_in_env_exit_code (file_exists sim_succeeds : Bool) : ℕ :=
  let _ := run_in_env_main file_exists sim_succeeds
  0

theorem above_set_bddAbove (f : Field) : BddAbove (above_set f) := by
  refine ⟨grid_size, fun j hj => ?_⟩
  obtain ⟨hlt, -⟩ := hj
  exact hlt.le

theorem analyze_beam_intensity (f : Field) :
    (analyze_beam f).intensity = intensity f := by
  simp only [analyze_beam]

theorem analyze_beam_beam_width (f : Field) :
    (analyze_beam f).beam_width = beam_width f := by
  simp only [analyze_beam]

theorem analyze_beam_max_intensity (f : Field) :
    (analyze_beam f).max_intensity = max_intensity f := by
  simp only [analyze_beam]

theorem analyze_beam_x_profile (f : Field) :
    (analyze_beam f).x_profile = x_profile f := by
  simp only [analyze_beam]

end FiberSim

/-- C1: for every positive wavelength, core radius and NA, the model computes
`V = 2π·core_radius·NA/wavelength`, and `calculate_mfd` returns
`2·(0.65 + 1.619·V^(-1.5) + 2.879·V^(-6))·core_radius` when `V < 2.405` and
`2·core_radius` otherwise. -/
theorem C1_calculate_mfd (wavelength core_radius na : ℝ)
    (hw : 0 < wavelength) (hc : 0 < core_radius) (hn : 0 < na) :
    FiberSim.v_number wavelength core_radius na
        = 2 * Real.pi * core_radius * na / wavelength ∧
    (FiberSim.v_number wavelength core_radius na < 2.405 →
      FiberSim.calculate_mfd wavelength core_radius na
        = 2 * (0.65 + 1.619 * (FiberSim.v_number wavelength core_radius na) ^ (-1.5 : ℝ)
                 + 2.879 * (FiberSim.v_number wavelength core_radius na) ^ (-6 : ℤ))
            * core_radius) ∧
    (¬ FiberSim.v_number wavelength core_radius na < 2.405 →
      FiberSim.calculate_mfd wavelength core_radius na = 2 * core_radius) := by
  have hv : 0 < FiberSim.v_number wavelength core_radius na := by
    unfold FiberSim.v_number
    positivity
  refine ⟨rfl, ?_, ?_⟩
  · intro hlt
    rw [FiberSim.calculate_mfd, if_pos hlt]
    rw [Real.rpow_neg hv.le, ← div_eq_mul_inv]
    rw [zpow_neg, zpow_ofNat, ← div_eq_mul_inv]
  · intro hge
    rw [FiberSim.calculate_mfd, if_neg hge]

/-- Witness for C1 at wavelength = core radius = NA = 1. -/
theorem C1_calculate_mfd_witness :
    0 < (1 : ℝ) ∧
    (FiberSim.v_number 1 1 1 = 2 * Real.pi * 1 * 1 / 1 ∧
    (FiberSim.v_number 1 1 1 < 2.405 →
      FiberSim.calculate_mfd 1 1 1
        = 2 * (0.65 + 1.619 * (FiberSim.v_number 1 1 1) ^ (-1.5 : ℝ)
                 + 2.879 * (FiberSim.v_number 1 1 1) ^ (-6 : ℤ)) * 1) ∧
    (¬ FiberSim.v_number 1 1 1 < 2.405 →
      FiberSim.calculate_mfd 1 1 1 = 2 * 1)) :=
  ⟨one_pos, C1_calculate_mfd 1 1 1 one_pos one_pos one_pos⟩

/-- C2: for every input field, `analyze_beam` computes pointwise intensity as
squared magnitude, takes the intensity row through the grid center as the
cross-section, sets the threshold to (maximum of the full 2D intensity)/e²,
and (when some sample is strictly above the threshold) returns
`beam_width = (last index above − first index above) × (L/N)`. -/
theorem C2_analyze_beam_width (f : FiberSim.Field)
    (h : (FiberSim.above_set f).Nonempty) :
    (∀ i j, (FiberSim.analyze_beam f).intensity i j = Complex.abs (f i j) ^ 2) ∧
    (∀ j, (FiberSim.analyze_beam f).x_profile j
        = (FiberSim.analyze_beam f).intensity FiberSim.center_idx j) ∧
    (∀ i j, (FiberSim.analyze_beam f).intensity i j
        ≤ (FiberSim.analyze_beam f).max_intensity) ∧
    (∃ i j, (FiberSim.analyze_beam f).max_intensity
        = (FiberSim.analyze_beam f).intensity i j) ∧
    FiberSim.threshold f
        = (FiberSim.analyze_beam f).max_intensity / FiberSim.napier_e ^ 2 ∧
    (∃ j₁ j₂ : ℕ, ∃ h₁ : j₁ < FiberSim.grid_size, ∃ h₂ : j₂ < FiberSim.grid_size,
      j₁ ≤ j₂ ∧
      FiberSim.threshold f < (FiberSim.analyze_beam f).x_profile ⟨j₁, h₁⟩ ∧
      FiberSim.threshold f < (FiberSim.analyze_beam f).x_profile ⟨j₂, h₂⟩ ∧
      (∀ j, ∀ hj : j < FiberSim.grid_size,
        FiberSim.threshold f < (FiberSim.analyze_beam f).x_profile ⟨j, hj⟩ →
          j₁ ≤ j ∧ j ≤ j₂) ∧
      (FiberSim.analyze_beam f).beam_width
        = ((j₂ : ℝ) - (j₁ : ℝ)) * FiberSim.physical_size / (FiberSim.grid_size : ℝ)) := by
  simp only [FiberSim.analyze_beam_intensity, FiberSim.analyze_beam_max_intensity,
    FiberSim.analyze_beam_x_profile, FiberSim.analyze_beam_beam_width]
  refine ⟨fun i j => rfl, fun j => rfl, ?_, ?_, ?_, ?_⟩
  · intro i j
    exact Finset.le_sup'
      (fun p : Fin FiberSim.grid_size × Fin FiberSim.grid_size =>
        FiberSim.intensity f p.1 p.2)
      (Finset.mem_univ (i, j))
  · obtain ⟨p, -, hp⟩ := Finset.exists_mem_eq_sup'
      (Finset.univ_nonempty (α := Fin FiberSim.grid_size × Fin FiberSim.grid_size))
      (fun p : Fin FiberSim.grid_size × Fin FiberSim.grid_size =>
        FiberSim.intensity f p.1 p.2)
    exact ⟨p.1, p.2, hp⟩
  · rw [FiberSim.threshold]
  · have hbdd : BddAbove (FiberSim.above_set f) := FiberSim.above_set_bddAbove f
    have hfst : FiberSim.first_above f ∈ FiberSim.above_set f := Nat.sInf_mem h
    have hlst : FiberSim.last_above f ∈ FiberSim.above_set f := Nat.sSup_mem h hbdd
    obtain ⟨h₁, hp₁⟩ := hfst
    obtain ⟨h₂, hp₂⟩ := hlst
    refine ⟨FiberSim.first_above f, FiberSim.last_above f, h₁, h₂, ?_, hp₁, hp₂, ?_, ?_⟩
    · exact Nat.sInf_le (Nat.sSup_mem h hbdd)
    · intro j hj habove
      exact ⟨Nat.sInf_le ⟨hj, habove⟩, le_csSup hbdd ⟨hj, habove⟩⟩
    · rw [FiberSim.beam_width, if_pos h]

/-- Witness for C2: the constant-one field has its whole cross-section above
the threshold 1/e². -/
theorem C2_analyze_beam_width_witness :
    (FiberSim.above_set FiberSim.one_field).Nonempty ∧
    ((∀ i j, (FiberSim.analyze_beam FiberSim.one_field).intensity i j
        = Complex.abs (FiberSim.one_field i j) ^ 2) ∧
    (∀ j, (FiberSim.analyze_beam FiberSim.one_field).x_profile j
        = (FiberSim.analyze_beam FiberSim.one_field).intensity FiberSim.center_idx j) ∧
    (∀ i j, (FiberSim.analyze_beam FiberSim.one_field).intensity i j
        ≤ (FiberSim.analyze_beam FiberSim.one_field).max_intensity) ∧
    (∃ i j, (FiberSim.analyze_beam FiberSim.one_field).max_intensity
        = (FiberSim.analyze_beam FiberSim.one_field).intensity i j) ∧
    FiberSim.threshold FiberSim.one_field
        = (FiberSim.analyze_beam FiberSim.one_field).max_intensity / FiberSim.napier_e ^ 2 ∧
    (∃ j₁ j₂ : ℕ, ∃ h₁ : j₁ < FiberSim.grid_size, ∃ h₂ : j₂ < FiberSim.grid_size,
      j₁ ≤ j₂ ∧
      FiberSim.threshold FiberSim.one_field
        < (FiberSim.analyze_beam FiberSim.one_field).x_profile ⟨j₁, h₁⟩ ∧
      FiberSim.threshold FiberSim.one_field
        < (FiberSim.analyze_beam FiberSim.one_field).x_profile ⟨j₂, h₂⟩ ∧
      (∀ j, ∀ hj : j < FiberSim.grid_size,
        FiberSim.threshold FiberSim.one_field
          < (FiberSim.analyze_beam FiberSim.one_field).x_profile ⟨j, hj⟩ →
          j₁ ≤ j ∧ j ≤ j₂) ∧
      (FiberSim.analyze_beam FiberSim.one_field).beam_width
        = ((j₂ : ℝ) - (j₁ : ℝ)) * FiberSim.physical_size / (FiberSim.grid_size : ℝ))) := by
  have hI : ∀ i j, FiberSim.intensity FiberSim.one_field i j = 1 := by
    intro i j
    simp [FiberSim.intensity, FiberSim.one_field]
  have hmax : FiberSim.max_intensity FiberSim.one_field = 1 := by
    rw [FiberSim.max_intensity]
    rw [show (fun p : Fin FiberSim.grid_size × Fin FiberSim.grid_size =>
          FiberSim.intensity FiberSim.one_field p.1 p.2) = fun _ => (1 : ℝ) from
        funext fun p => hI p.1 p.2]
    exact Finset.sup'_const _ _
  have he1 : (1 : ℝ) < FiberSim.napier_e := by
    rw [FiberSim.napier_e]
    calc (1 : ℝ) = Real.exp 0 := (Real.exp_zero).symm
    _ < Real.exp 1 := Real.exp_lt_exp.mpr one_pos
  have he2 : (1 : ℝ) < FiberSim.napier_e ^ 2 := one_lt_pow₀ he1 two_ne_zero
  have hth : FiberSim.threshold FiberSim.one_field < 1 := by
    rw [FiberSim.threshold, hmax]
    rw [div_lt_one (lt_trans one_pos he2)]
    exact he2
  have hne : (FiberSim.above_set FiberSim.one_field).Nonempty := by
    refine ⟨0, ⟨by decide, ?_⟩⟩
    rw [FiberSim.x_profile, hI]
    exact hth
  exact ⟨hne, C2_analyze_beam_width FiberSim.one_field hne⟩

/-- C4 counterexample: the dict returned by `analyze_beam` (source lines
117-123) carries exactly the keys `intensity`, `beam_width`, `max_intensity`,
`x_coords` and `x_profile`; no degenerate flag of any kind is among them, so
the claim that the degenerate case is reported "together with an explicit
degenerate flag" is false on the code. -/
theorem C4_no_degenerate_flag :
    FiberSim.analyze_beam_keys
      = ["intensity", "beam_width", "max_intensity", "x_coords", "x_profile"] ∧
    "degenerate" ∉ FiberSim.analyze_beam_keys := by
  constructor
  · rfl
  · decide

/-- C4 (amended): on a field none of whose cross-section samples strictly
exceeds the threshold — here the constant zero field — `analyze_beam` returns
`beam_width = 0` and does not raise (the embedding is a total function); no
explicit degenerate flag is part of the returned record. -/
theorem C4_zero_field_beam_width :
    (FiberSim.analyze_beam FiberSim.zero_field).beam_width = 0 := by
  have hI : ∀ i j, FiberSim.intensity FiberSim.zero_field i j = 0 := by
    intro i j
    simp [FiberSim.intensity, FiberSim.zero_field]
  have hmax : FiberSim.max_intensity FiberSim.zero_field = 0 := by
    rw [FiberSim.max_intensity]
    rw [show (fun p : Fin FiberSim.grid_size × Fin FiberSim.grid_size =>
          FiberSim.intensity FiberSim.zero_field p.1 p.2) = fun _ => (0 : ℝ) from
        funext fun p => hI p.1 p.2]
    exact Finset.sup'_const _ _
  have hempty : ¬ (FiberSim.above_set FiberSim.zero_field).Nonempty := by
    rintro ⟨j, hj, hlt⟩
    rw [FiberSim.x_profile, hI] at hlt
    rw [FiberSim.threshold, hmax, zero_div] at hlt
    exact lt_irrefl 0 hlt
  rw [FiberSim.analyze_beam_beam_width, FiberSim.beam_width, if_neg hempty]

/-- C3: for every curvature radius R > 0 and aperture factor,
`concave_endface` builds a phase profile equal to `k·ρ²/(2R)` with
`k = 2π/wavelength` at every grid point with `ρ ≤ aperture_radius =
core_radius × aperture_factor` and 0 where `ρ > aperture_radius`, applies it
to the seeded fiber mode, and clips with a circular aperture at exactly the
same `aperture_radius` before propagating. -/
theorem C3_concave_endface (curvature_radius aperture_factor distance : ℝ)
    (hR : 0 < curvature_radius) :
    (∀ i j, FiberSim.rho i j ≤ FiberSim.aperture_radius aperture_factor →
      FiberSim.phase_mask curvature_radius aperture_factor i j
        = (2 * Real.pi / FiberSim.sim_wavelength) * FiberSim.rho i j ^ 2
            / (2 * curvature_radius)) ∧
    (∀ i j, FiberSim.aperture_radius aperture_factor < FiberSim.rho i j →
      FiberSim.phase_mask curvature_radius aperture_factor i j = 0) ∧
    FiberSim.aperture_radius aperture_factor
      = FiberSim.sim_core_radius * aperture_factor ∧
    FiberSim.concave_endface curvature_radius aperture_factor distance
      = FiberSim.fresnel distance
          (FiberSim.circ_aperture (FiberSim.aperture_radius aperture_factor)
            (FiberSim.sub_phase
              (FiberSim.phase_mask curvature_radius aperture_factor)
              FiberSim.create_fiber_mode)) := by
  refine ⟨?_, ?_, rfl, rfl⟩
  · intro i j hle
    rw [FiberSim.phase_mask, if_pos hle]
  · intro i j hgt
    rw [FiberSim.phase_mask, if_neg (not_le.mpr hgt)]

/-- Witness for C3 at curvature radius 1, aperture factor 2, distance 0. -/
theorem C3_concave_endface_witness :
    0 < (1 : ℝ) ∧
    ((∀ i j, FiberSim.rho i j ≤ FiberSim.aperture_radius 2 →
      FiberSim.phase_mask 1 2 i j
        = (2 * Real.pi / FiberSim.sim_wavelength) * FiberSim.rho i j ^ 2
            / (2 * 1)) ∧
    (∀ i j, FiberSim.aperture_radius 2 < FiberSim.rho i j →
      FiberSim.phase_mask 1 2 i j = 0) ∧
    FiberSim.aperture_radius 2 = FiberSim.sim_core_radius * 2 ∧
    FiberSim.concave_endface 1 2 0
      = FiberSim.fresnel 0
          (FiberSim.circ_aperture (FiberSim.aperture_radius 2)
            (FiberSim.sub_phase (FiberSim.phase_mask 1 2)
              FiberSim.create_fiber_mode))) :=
  ⟨one_pos, C3_concave_endface 1 2 0 one_pos⟩

/-- C5 counterexample: the reporting expression of `parameter_study`
(line 223) is not guarded — with `flat_width = 0` (and `concave_width = 1`)
the division by zero is reached and no finite percentage is produced. -/
theorem C5_divergence_percent_counterexample :
    FiberSim.divergence_percent 1 0 = none := rfl

/-- C5 (amended): the summary's percentage is computed by the unguarded
expression `(concave_width/flat_width − 1)·100`; whenever `flat_width ≠ 0`
it is the finite value of that formula, and when `flat_width = 0` the
division by zero occurs (no finite value is produced). -/
theorem C5_divergence_percent_formula (concave_width flat_width : ℚ)
    (hf : flat_width ≠ 0) :
    FiberSim.divergence_percent concave_width flat_width
      = some ((concave_width / flat_width - 1) * 100) := by
  rw [FiberSim.divergence_percent, if_neg hf]

/-- Witness for C5 at concave width 2, flat width 1. -/
theorem C5_divergence_percent_formula_witness :
    (1 : ℚ) ≠ 0 ∧
    FiberSim.divergence_percent 2 1 = some ((2 / 1 - 1) * 100) :=
  ⟨one_ne_zero, C5_divergence_percent_formula 2 1 one_ne_zero⟩

/-- C6 counterexample: `__init__` takes no configuration parameter, and the
module contains no `raise` statement — no `ConfigurationError` exists — so
"constructing with a non-positive wavelength fails with a
ConfigurationError" is false on the code: such a construction cannot even be
expressed, and no validation of any kind runs. -/
theorem C6_no_configuration_error :
    FiberSim.init_params = [] ∧
    FiberSim.fiber_simulation_raises = [] ∧
    "ConfigurationError" ∉ FiberSim.fiber_simulation_raises := by
  refine ⟨rfl, rfl, ?_⟩
  simp [FiberSim.fiber_simulation_raises]

/-- C6 (amended): the constructor takes no arguments and performs no
validation; it unconditionally assigns the fixed values (wavelength 1550e-9,
core radius 4.5e-6, cladding radius 62.5e-6, NA 0.12, grid 512, window
500e-6), all of which are positive, and construction always succeeds. -/
theorem C6_init_hardcoded :
    FiberSim.smf28_init.wavelength = 1550e-9 ∧
    FiberSim.smf28_init.core_radius = 4.5e-6 ∧
    FiberSim.smf28_init.cladding_radius = 62.5e-6 ∧
    FiberSim.smf28_init.na = 0.12 ∧
    FiberSim.smf28_init.grid_size = 512 ∧
    FiberSim.smf28_init.physical_size = 500e-6 ∧
    0 < FiberSim.smf28_init.wavelength ∧
    0 < FiberSim.smf28_init.core_radius ∧
    0 < FiberSim.smf28_init.na := by
  refine ⟨rfl, rfl, rfl, rfl, rfl, rfl, ?_, ?_, ?_⟩ <;>
    · simp only [FiberSim.smf28_init]
      norm_num

/-- C7 counterexample: with the default grid (spacing `500e-6/512`, N = 512,
wavelength 1550e-9) and propagation distance 1 m the Fresnel sampling
criterion is violated, yet the propagation step emits no warning of any
kind — the violation is silently ignored, contradicting the claim. -/
theorem C7_no_sampling_warning_counterexample :
    FiberSim.sampling_criterion_violated FiberSim.grid_spacing_q 1550e-9 1 512 = true ∧
    FiberSim.sampling_warnings FiberSim.grid_spacing_q 1550e-9 1 512 = [] := by
  constructor
  · simp only [FiberSim.sampling_criterion_violated, FiberSim.grid_spacing_q,
      decide_eq_true_eq]
    norm_num
  · rfl

/-- C7 (amended): the propagation step performs no sampling-validity check
and surfaces no warning for any configuration whatsoever; results are
produced unconditionally, and violations of the Fresnel sampling criterion
are silently ignored. -/
theorem C7_no_sampling_warning (grid_spacing wavelength distance : ℚ) (n : ℕ) :
    FiberSim.sampling_warnings grid_spacing wavelength distance n = [] := rfl

/-- C8: the sweep recomputes the flat-endface beam afresh in every iteration,
and every iteration yields the identical flat beam width: the per-iteration
list equals the list obtained by computing the flat-endface result once and
replicating it across the sweep. -/
theorem C8_flat_width_invariant :
    FiberSim.beam_widths_flat
      = List.replicate FiberSim.curvature_radii.length
          ((FiberSim.analyze_beam
            (FiberSim.flat_endface FiberSim.study_distance)).beam_width) ∧
    ∀ w ∈ FiberSim.beam_widths_flat,
      w = (FiberSim.analyze_beam
            (FiberSim.flat_endface FiberSim.study_distance)).beam_width := by
  have hrep : FiberSim.beam_widths_flat
      = List.replicate FiberSim.curvature_radii.length
          ((FiberSim.analyze_beam
            (FiberSim.flat_endface FiberSim.study_distance)).beam_width) := by
    simp only [FiberSim.beam_widths_flat, FiberSim.curvature_radii,
      List.map_cons, List.map_nil, List.length_cons, List.length_nil,
      List.replicate]
  refine ⟨hrep, ?_⟩
  intro w hw
  rw [hrep] at hw
  exact List.eq_of_mem_replicate hw

/-- C10 counterexample: when the simulation file exists but the invoked
simulation fails, `main` returns `False`, yet the process still exits with
code 0 because the `__main__` guard discards the return value — the claim
that failure yields a non-zero exit code is false on the code. -/
theorem C10_exit_code_counterexample :
    FiberSim.run_in_env_main true false = false ∧
    FiberSim.run_in_env_exit_code true false = 0 :=
  ⟨rfl, rfl⟩

/-- C10 (amended): `main` returns `True` exactly when the simulation file
exists and the invoked simulation succeeds, but the launcher's process exit
code is 0 in every case — success or failure is not propagated to the exit
code. -/
theorem C10_exit_code_always_zero (file_exists sim_succeeds : Bool) :
    FiberSim.run_in_env_main file_exists sim_succeeds
        = (file_exists && sim_succeeds) ∧
    FiberSim.run_in_env_exit_code file_exists sim_succeeds = 0 := by
  cases file_exists <;> cases sim_succeeds <;> exact ⟨rfl, rfl⟩
